import Mathlib

/-!
Shallow embedding of the ERC20 NEAR contract (src/src/lib.rs) and verification
of its specification claims.

Machine integers: balances, allowances and the total supply are u128 in the
source; they are modelled as Nat with an explicit `% 2 ^ 128` at the one place
an addition can overflow (the source performs plain `+`, which wraps in a
release build without overflow checks).  Subtractions are guarded by the
source's own `require!` checks, so Nat truncated subtraction agrees with u128
subtraction wherever it is reached.

Maps: near_sdk's `store::UnorderedMap` is modelled as an association list with
`lookupA` / `insertA` / `containsA` mirroring `get` / `insert` / `contains_key`
(insert replaces the value of an existing key).  The nested allowance map
additionally records the storage namespace the inner map was created with
(`UnorderedMap::new(env::keccak256(spender.as_bytes()))` in the source), which
claim C9 is about.

Panics: NEAR aborts the whole call on any panic.  Operations that can panic
return an `Outcome` that carries, on abort, the panic site kind and the state
the in-memory structures had reached at the moment of the panic, so that both
host-level atomicity and the order of writes relative to the failure can be
stated.  `require!` is used in the source without a message, so every require
failure carries the same generic payload; `Err.requireViolated` models that,
and `Err.unwrapOnNone` models `Option::unwrap` on `None`.
-/

namespace Erc20Near

/-- Account identifiers: NEAR `AccountId` is a string; equality is exact. -/
abbrev AccountId := String

/-- Modulus of the u128 value type used for all amounts. -/
def U128MOD : Nat := 2 ^ 128

/-- Lookup in an association list, mirroring `UnorderedMap::get`. -/
def lookupA {α : Type} : List (AccountId × α) → AccountId → Option α
  | [], _ => none
  | (k0, v0) :: rest, k => if k0 = k then some v0 else lookupA rest k

/-- Insert into an association list, replacing the value of an existing key,
mirroring `UnorderedMap::insert`. -/
def insertA {α : Type} : List (AccountId × α) → AccountId → α → List (AccountId × α)
  | [], k, v => [(k, v)]
  | (k0, v0) :: rest, k, v =>
      if k0 = k then (k, v) :: rest else (k0, v0) :: insertA rest k v

/-- Membership test, mirroring `UnorderedMap::contains_key`. -/
def containsA {α : Type} (m : List (AccountId × α)) (k : AccountId) : Bool :=
  (lookupA m k).isSome

/-- Model of `near_sdk::env::keccak256` applied to the spender's bytes, used by
`approve` as the storage namespace of a freshly created inner allowance map.
Only equality of inputs matters for the claims about it, so the hash is
modelled by the identity on the input string (any function of the input
would do; the real keccak256 likewise yields equal outputs on equal inputs). -/
def keccakNS (input : String) : String := input

/-- One owner's entry in the `allowed` table: the inner spender map together
with the storage namespace it was created with. -/
structure AllowedEntry where
  map : List (AccountId × Nat)
  ns : String
deriving DecidableEq

/-- State of the contract struct `ERC20` from the source. -/
structure ERC20 where
  name : String
  symbol : String
  decimals : Nat
  total_supply : Nat
  balance : List (AccountId × Nat)
  allowed : List (AccountId × AllowedEntry)
deriving DecidableEq

/-- Panic kinds: `require!` is invoked without a message in the source, so all
require failures are a single indistinguishable payload; unwrap on `None` is
the other panic site. -/
inductive Err where
  | requireViolated
  | unwrapOnNone
deriving DecidableEq

/-- Result of running a fallible operation: on `ok` the committed state and
return value; on `abort` the panic kind and the state the maps had reached
when the panic fired (the host then discards it). -/
inductive Outcome (α : Type) where
  | ok (s : ERC20) (ret : α)
  | abort (e : Err) (s : ERC20)
deriving DecidableEq

/-- State reached by the operation (at the panic point if it aborted). -/
def Outcome.state {α : Type} : Outcome α → ERC20
  | .ok s _ => s
  | .abort _ s => s

/-- Whether the operation completed without panicking. -/
def Outcome.isOk {α : Type} : Outcome α → Bool
  | .ok _ _ => true
  | .abort _ _ => false

/-- `ERC20::init`: records the metadata and the given total supply, with both
maps created empty (nothing is minted to any account). -/
def init (name symbol : String) (decimals : Nat) (total_supply : Nat) : ERC20 :=
  { name := name, symbol := symbol, decimals := decimals,
    total_supply := total_supply, balance := [], allowed := [] }

/-- `ERC20::balance_of`: returns `self.balance.get(&account_id)` unchanged,
an `Option` that is `none` for an absent account (the source returns the
`Option` itself; it never panics). -/
def balance_of (s : ERC20) (account : AccountId) : Option Nat :=
  lookupA s.balance account

/-- `ERC20::allowance`: `self.allowed.get(&owner).unwrap().get(&spender).unwrap()`.
A `none` result models the unwrap panic that fires when the owner has no
inner map or the spender has no entry in it. -/
def allowance (s : ERC20) (owner spender : AccountId) : Option Nat :=
  match lookupA s.allowed owner with
  | none => none
  | some entry => lookupA entry.map spender

/-- `ERC20::transfer` with the ambient `predecessor_account_id()` made an
explicit `caller` parameter.  Mirrors the source line by line: read the
caller's balance (0 if absent), require it covers `value`, write the caller's
debited balance, read the receiver's balance from the updated map, and if that
read 0 insert `predecessor_account_id() -> 0` (the source inserts the
predecessor here, not `to`), then write `to`'s credited balance and return
true. -/
def transfer (s : ERC20) (caller to_ : AccountId) (value : Nat) : Outcome Bool :=
  let user_balance := (balance_of s caller).getD 0
  if user_balance < value then .abort .requireViolated s
  else
    let s1 : ERC20 := { s with balance := insertA s.balance caller (user_balance - value) }
    let receiver_balance := (balance_of s1 to_).getD 0
    let s2 : ERC20 :=
      if receiver_balance = 0 then { s1 with balance := insertA s1.balance caller 0 } else s1
    .ok { s2 with balance := insertA s2.balance to_ ((receiver_balance + value) % U128MOD) } true

/-- `ERC20::transfer_from` with the ambient caller explicit.  Mirrors the
source: `balance_of(from).unwrap()` (panics when `from` is absent), require
balance covers value, `allowance(from, caller)` (panics when absent) compared
against value, `balance.insert(from, b - v).unwrap()` (the old value exists
because `from` was just read as present), the same zero-receiver branch as
`transfer` inserting `predecessor -> 0`, and finally
`balance.insert(to, r + v).unwrap()`, whose unwrap panics when `to` had no
previous entry — after that insert has already been applied. -/
def transfer_from (s : ERC20) (caller from_ to_ : AccountId) (value : Nat) : Outcome Bool :=
  match balance_of s from_ with
  | none => .abort .unwrapOnNone s
  | some user_balance =>
    if user_balance < value then .abort .requireViolated s
    else
      match allowance s from_ caller with
      | none => .abort .unwrapOnNone s
      | some a =>
        if a < value then .abort .requireViolated s
        else
          let s1 : ERC20 := { s with balance := insertA s.balance from_ (user_balance - value) }
          let receiver_balance := (balance_of s1 to_).getD 0
          let s2 : ERC20 :=
            if receiver_balance = 0 then { s1 with balance := insertA s1.balance caller 0 } else s1
          let s3 : ERC20 :=
            { s2 with balance := insertA s2.balance to_ ((receiver_balance + value) % U128MOD) }
          match balance_of s2 to_ with
          | none => .abort .unwrapOnNone s3
          | some _ => .ok s3 true

/-- First half of `ERC20::approve`: if the caller has no entry in `allowed`,
insert a fresh inner map whose storage namespace is `keccak256(spender)`. -/
def ensureAllowedEntry (allowed : List (AccountId × AllowedEntry))
    (caller spender : AccountId) : List (AccountId × AllowedEntry) :=
  if containsA allowed caller then allowed
  else insertA allowed caller { map := [], ns := keccakNS spender }

/-- `ERC20::approve` with the ambient caller explicit: ensure the caller's
inner map exists, then `get_mut(&caller).unwrap().insert(spender, value)`.
The unwrap cannot fire (the entry was just ensured; `lookupA_ensureAllowedEntry`
proves it), so the operation is total, matching the source's inability to
panic here. -/
def approve (s : ERC20) (caller spender : AccountId) (value : Nat) : ERC20 :=
  match lookupA (ensureAllowedEntry s.allowed caller spender) caller with
  | some entry =>
      { s with
        allowed :=
          insertA (ensureAllowedEntry s.allowed caller spender) caller
            ({ entry with map := insertA entry.map spender value }) }
  | none => s

/-- First half of `ERC20::mint`: create a zero balance entry for `to` when
absent. -/
def ensureBalanceEntry (balance : List (AccountId × Nat)) (to_ : AccountId) :
    List (AccountId × Nat) :=
  if containsA balance to_ then balance else insertA balance to_ 0

/-- `ERC20::mint`: ensure `to` has an entry, then
`*self.balance.get_mut(&to).unwrap() += value` (unchecked u128 addition,
modelled wrapping).  The field `total_supply` is never touched.  The unwrap
cannot fire (the entry was just ensured), so the match's `none` arm is dead. -/
def mint (s : ERC20) (to_ : AccountId) (value : Nat) : ERC20 :=
  match lookupA (ensureBalanceEntry s.balance to_) to_ with
  | some b =>
      { s with balance := insertA (ensureBalanceEntry s.balance to_) to_ ((b + value) % U128MOD) }
  | none => s

/-- `ERC20::burn`: `require!(value != 0)`, then
`require!(balance_of(account).unwrap_or(0) >= value)`, then
`*self.balance.get_mut(&account_id).unwrap() -= value`.  The field
`total_supply` is never touched.  The final match's `none` arm is dead: the
second require guarantees the entry exists (balance at least value, nonzero). -/
def burn (s : ERC20) (account : AccountId) (value : Nat) : Outcome Unit :=
  if value = 0 then .abort .requireViolated s
  else if (balance_of s account).getD 0 < value then .abort .requireViolated s
  else
    match lookupA s.balance account with
    | some b => .ok { s with balance := insertA s.balance account (b - value) } ()
    | none => .abort .unwrapOnNone s

/-- Sum of all stored balances, the quantity the conservation invariant I1
compares with `total_supply`. -/
def sumBalances (s : ERC20) : Nat := (s.balance.map Prod.snd).sum

/-- Storage namespace recorded for an owner's inner allowance map, if the
owner has one. -/
def ownerNS (s : ERC20) (owner : AccountId) : Option String :=
  (lookupA s.allowed owner).map AllowedEntry.ns

/-- Concrete state: alice holds 10 and the recorded supply is 10, so the
conservation invariant I1 holds. -/
def sAlice : ERC20 :=
  { name := "Token", symbol := "TOK", decimals := 18, total_supply := 10,
    balance := [("alice", 10)], allowed := [] }

/-- Concrete state for the allowance-decrement scenario: a holds 5, c holds 1,
supply 6. -/
def sApprove : ERC20 :=
  { name := "Token", symbol := "TOK", decimals := 18, total_supply := 6,
    balance := [("a", 5), ("c", 1)], allowed := [] }

/-- Concrete state for the delegated-transfer abort scenario: a holds 5 and
has approved b for 5. -/
def sTF : ERC20 :=
  { name := "Token", symbol := "TOK", decimals := 18, total_supply := 5,
    balance := [("a", 5)],
    allowed := [("a", { map := [("b", 5)], ns := keccakNS "b" })] }

/-- Concrete state for the burn scenarios: a holds 5, supply 5. -/
def sBurnPre : ERC20 :=
  { name := "Token", symbol := "TOK", decimals := 18, total_supply := 5,
    balance := [("a", 5)], allowed := [] }

/-- State after burning 3 from a in `sBurnPre`. -/
def sBurnPost : ERC20 :=
  { name := "Token", symbol := "TOK", decimals := 18, total_supply := 5,
    balance := [("a", 2)], allowed := [] }

theorem lookupA_insertA_self {α : Type} (m : List (AccountId × α)) (k : AccountId) (v : α) :
    lookupA (insertA m k v) k = some v := by
  induction m with
  | nil => simp [insertA, lookupA]
  | cons p rest ih =>
    obtain ⟨ka, va⟩ := p
    by_cases hk : ka = k
    · subst hk; simp [insertA, lookupA]
    · simp [insertA, hk, lookupA, ih]

theorem lookupA_insertA_ne {α : Type} (m : List (AccountId × α)) (k k' : AccountId) (v : α)
    (h : k' ≠ k) : lookupA (insertA m k v) k' = lookupA m k' := by
  induction m with
  | nil =>
    simp only [insertA, lookupA]
    rw [if_neg fun hh => h hh.symm]
  | cons p rest ih =>
    obtain ⟨ka, va⟩ := p
    by_cases hk : ka = k
    · subst hk
      simp only [insertA, if_pos rfl, lookupA]
      rw [if_neg fun hh => h hh.symm, if_neg fun hh => h hh.symm]
    · simp only [insertA, if_neg hk, lookupA]
      by_cases hk' : ka = k'
      · rw [if_pos hk', if_pos hk']
      · rw [if_neg hk', if_neg hk']
        exact ih

theorem lookupA_ensureAllowedEntry (allowed : List (AccountId × AllowedEntry))
    (caller spender : AccountId) :
    (lookupA (ensureAllowedEntry allowed caller spender) caller).isSome = true := by
  unfold ensureAllowedEntry containsA
  by_cases hc : (lookupA allowed caller).isSome = true
  · simp [hc]
  · simp [hc, lookupA_insertA_self]

theorem allowance_approve_self (s : ERC20) (caller spender : AccountId) (v : Nat) :
    allowance (approve s caller spender v) caller spender = some v := by
  unfold approve
  cases he : lookupA (ensureAllowedEntry s.allowed caller spender) caller with
  | none =>
    have hs := lookupA_ensureAllowedEntry s.allowed caller spender
    rw [he] at hs
    exact absurd hs (by simp)
  | some entry =>
    simp [allowance, lookupA_insertA_self]


/-- C1: Conservation of supply fails on the code.  The state `sAlice`
satisfies the invariant (sum of balances = total_supply = 10), and the
one-call sequence transfer(caller alice, to bob, 3) — a sequence of
transfer/transfer_from/approve calls, no mint or burn — commits successfully,
yet afterwards the sum of balances is 3 while total_supply() is still 10: the
zero-receiver branch overwrote the caller's debited balance with 0, so sum of
balances is not invariant and no longer equals the stored supply. -/
theorem conservation_violated_by_transfer :
    sumBalances sAlice = sAlice.total_supply ∧
    (transfer sAlice "alice" "bob" 3).isOk = true ∧
    sumBalances (transfer sAlice "alice" "bob" 3).state = 3 ∧
    (transfer sAlice "alice" "bob" 3).state.total_supply = 10 ∧
    sumBalances (transfer sAlice "alice" "bob" 3).state ≠
      (transfer sAlice "alice" "bob" 3).state.total_supply := by decide

/-- C2: mint does not increase total_supply.  Minting 1 to alice on a fresh
ledger raises balance_of(alice) to 1 but leaves total_supply() at 0, not 1 as
the claim requires; the source's mint never touches the total_supply field
and performs the balance addition unchecked rather than failing with
Overflow. -/
theorem mint_ignores_total_supply :
    balance_of (mint (init "Token" "TOK" 18 0) "alice" 1) "alice" = some 1 ∧
    (mint (init "Token" "TOK" 18 0) "alice" 1).total_supply = 0 ∧
    (init "Token" "TOK" 18 0).total_supply = 0 := by decide

/-- C3: transfer_from does not debit the allowance.  After approve by a of
(b, 5) and a successful transfer_from with caller b moving 3 from a to c,
allowance(a, b) is still 5 rather than 5 - 3 = 2: the source's transfer_from
never writes the allowed map. -/
theorem transfer_from_keeps_allowance :
    allowance (approve sApprove "a" "b" 5) "a" "b" = some 5 ∧
    (transfer_from (approve sApprove "a" "b" 5) "b" "a" "c" 3).isOk = true ∧
    allowance (transfer_from (approve sApprove "a" "b" 5) "b" "a" "c" 3).state "a" "b" =
      some 5 ∧
    allowance (transfer_from (approve sApprove "a" "b" 5) "b" "a" "c" 3).state "a" "b" ≠
      some (5 - 3) := by decide

/-- C4: transfer does not decrease the caller's balance by the value.  From
balance_of(alice) = 10, transfer(caller alice, to bob, 3) succeeds (returns
true) and credits bob with 3, but leaves alice at 0 instead of 10 - 3 = 7:
when the receiver's balance reads 0 or absent, the source inserts
predecessor -> 0 — overwriting the caller's freshly debited balance — instead
of creating the receiver's entry. -/
theorem transfer_zeroes_caller_balance :
    balance_of sAlice "alice" = some 10 ∧
    (transfer sAlice "alice" "bob" 3).isOk = true ∧
    balance_of (transfer sAlice "alice" "bob" 3).state "bob" = some 3 ∧
    balance_of (transfer sAlice "alice" "bob" 3).state "alice" = some 0 ∧
    balance_of (transfer sAlice "alice" "bob" 3).state "alice" ≠ some (10 - 3) := by decide

/-- C5: burn does not decrease total_supply.  From balance_of(a) = 5 and
total_supply() = 5, burn(a, 3) commits, debiting a's balance to 2, but
total_supply() remains 5 instead of dropping to 2: the source's burn never
touches the total_supply field (its two require guards do abort before any
write, but the supply half of the claimed atomic effect is absent). -/
theorem burn_ignores_total_supply :
    burn sBurnPre "a" 3 = Outcome.ok sBurnPost () ∧
    balance_of sBurnPost "a" = some 2 ∧
    sBurnPost.total_supply = 5 ∧
    sBurnPre.total_supply - 3 ≠ sBurnPost.total_supply := by decide

/-- C6: transfer_from can fail after writing, and absent entries fail with the
wrong error.  From `sTF` (a holds 5 and has approved b for 5) the call
transfer_from(caller b, from a, to c, 3) satisfies both claimed preconditions,
yet aborts via unwrap-on-None — and at the panic point the balance map has
already been rewritten (a debited to 2, caller b zeroed, c credited 3), so the
failure does not occur strictly before the writes.  The last conjunct shows an
absent `from` also aborting via unwrap-on-None instead of the distinct
InsufficientBalance condition. -/
theorem transfer_from_aborts_after_write :
    transfer_from sTF "b" "a" "c" 3 =
      Outcome.abort Err.unwrapOnNone { sTF with balance := [("a", 2), ("b", 0), ("c", 3)] } ∧
    (balance_of sTF "a").getD 0 ≥ 3 ∧
    (allowance sTF "a" "b").getD 0 ≥ 3 ∧
    [("a", 2), ("b", 0), ("c", 3)] ≠ sTF.balance ∧
    transfer_from (init "n" "s" 0 0) "b" "x" "c" 1 =
      Outcome.abort Err.unwrapOnNone (init "n" "s" 0 0) := by decide

/-- C7: the read operations are not total with absence-means-zero.  On a fresh
ledger, allowance(a, b) reaches unwrap on None and panics (the `none` result of
the model) instead of returning 0, and balance_of(a) returns None rather than
the claimed 0 (balance_of never panics, but it does not yield 0 either). -/
theorem allowance_aborts_on_absent :
    allowance (init "Token" "TOK" 18 0) "a" "b" = none ∧
    balance_of (init "Token" "TOK" 18 0) "a" = none := by decide

/-- C8: approve is total and last-writer-wins.  approve is a plain function
into ERC20 states (its only unwrap is proved dead by
`lookupA_ensureAllowedEntry`), and for every starting state, caller, spender
and values v1 then v2, two successive approve calls leave the stored
allowance at exactly v2: the second call overwrites, never adds to, the
first. -/
theorem approve_overwrites (s : ERC20) (caller spender : AccountId) (v1 v2 : Nat) :
    allowance (approve (approve s caller spender v1) caller spender v2) caller spender =
      some v2 :=
  allowance_approve_self (approve s caller spender v1) caller spender v2

/-- C9: allowance sub-tables are namespaced by the spender, not the owner.
After the distinct owners a and b each approve the same spender, both owners'
inner maps carry the identical storage namespace keccak256(spender bytes), so
their persisted sub-tables collide on the same storage region, contradicting
owner-scoped isolation. -/
theorem allowance_ns_collision :
    ownerNS (approve (approve (init "Token" "TOK" 18 0) "a" "spend" 1) "b" "spend" 2) "a" =
      ownerNS (approve (approve (init "Token" "TOK" 18 0) "a" "spend" 1) "b" "spend" 2) "b" ∧
    ownerNS (approve (approve (init "Token" "TOK" 18 0) "a" "spend" 1) "b" "spend" 2) "a" =
      some (keccakNS "spend") ∧
    "a" ≠ "b" := by decide

/-- C10: burn frame.  Whenever burn(account, v) commits, the balance of every
account other than the burned one, the entire allowance table, and the
metadata fields name, symbol and decimals are exactly as before the call. -/
theorem burn_frame (s s' : ERC20) (account b : AccountId) (v : Nat)
    (h : burn s account v = Outcome.ok s' ()) (hb : b ≠ account) :
    balance_of s' b = balance_of s b ∧ s'.allowed = s.allowed ∧
    s'.name = s.name ∧ s'.symbol = s.symbol ∧ s'.decimals = s.decimals := by
  unfold burn at h
  by_cases h0 : v = 0
  · rw [if_pos h0] at h
    exact absurd h (by simp)
  · rw [if_neg h0] at h
    by_cases h1 : (balance_of s account).getD 0 < v
    · rw [if_pos h1] at h
      exact absurd h (by simp)
    · rw [if_neg h1] at h
      cases hl : lookupA s.balance account with
      | none =>
        rw [hl] at h
        exact absurd h (by simp)
      | some b0 =>
        rw [hl] at h
        have hs : ({ s with balance := insertA s.balance account (b0 - v) } : ERC20) = s' := by
          injection h with hA hB
        subst hs
        refine ⟨?_, rfl, rfl, rfl, rfl⟩
        show lookupA (insertA s.balance account (b0 - v)) b = lookupA s.balance b
        exact lookupA_insertA_ne s.balance account b (b0 - v) hb

/-- Witness for C10 at a concrete input: burning 3 from a in `sBurnPre`
commits to `sBurnPost`, and the frame holds there for the distinct account b. -/
theorem burn_frame_witness :
    balance_of sBurnPost "b" = balance_of sBurnPre "b" ∧
    sBurnPost.allowed = sBurnPre.allowed ∧
    sBurnPost.name = sBurnPre.name ∧ sBurnPost.symbol = sBurnPre.symbol ∧
    sBurnPost.decimals = sBurnPre.decimals :=
  burn_frame sBurnPre sBurnPost "a" "b" 3 (by decide) (by decide)

end Erc20Near
